import Mathlib

/-!
Verification of the resource-graph declaration in `stacks/v2_stack.py`
(`FinalCloudProjectV2Stack`).  The stack is a static AWS CDK declaration:
it builds one IAM role, two S3 buckets, one asset upload, one Glue
workflow, three Glue jobs and three Glue triggers, in a single
straight-line constructor.  We embed each resource descriptor as a Lean
structure carrying exactly the properties the Python constructor passes,
and the constructor body as an ordered list of declaration events.

Deploy-time attribute references (`bucket.bucket_name`, `role.role_arn`)
are tokens resolved by the provisioning platform, not by this code; the
embedding abstracts their resolved values into an `Env` record and states
every theorem for all resolutions.  `my_workflow.name`, by contrast, is
the plain name property of the L1 `CfnWorkflow` construct: the stack never
sets it, so the value each trigger passes as `workflow_name` is `None`,
embedded as `none`.
-/

/-- IAM policy effect (`iam.Effect`). -/
inductive Effect
  | ALLOW
  | DENY
deriving DecidableEq

/-- `iam.PolicyStatement`: an effect, a list of actions and a list of
resource ARNs. -/
structure PolicyStatement where
  effect : Effect
  actions : List String
  resources : List String
deriving DecidableEq

/-- `iam.Role` as declared here: construct id, trusted service principal,
and the list of attached managed-policy names. -/
structure Role where
  construct_id : String
  assumed_by : String
  managed_policies : List String
deriving DecidableEq

/-- `cdk.RemovalPolicy`. -/
inductive RemovalPolicy
  | DESTROY
  | RETAIN
deriving DecidableEq

/-- `s3.BlockPublicAccess` choice used in this stack. -/
inductive BlockPublicAccess
  | BLOCK_ALL
deriving DecidableEq

/-- `s3.Bucket` properties passed in this stack.  `public_read_access`
defaults to `false` and `block_public_access` to `none` when the Python
constructor omits them. -/
structure Bucket where
  construct_id : String
  versioned : Bool
  public_read_access : Bool
  block_public_access : Option BlockPublicAccess
  removal_policy : RemovalPolicy
  auto_delete_objects : Bool
deriving DecidableEq

/-- `s3deploy.BucketDeployment`: local sources, destination bucket
(by construct id) and destination key prefix. -/
structure BucketDeployment where
  construct_id : String
  sources : List String
  destination_bucket : String
  dest_key_pfx : String
deriving DecidableEq

/-- `glue.CfnWorkflow` as declared: only a construct id and a
description are passed (no explicit name). -/
structure CfnWorkflow where
  construct_id : String
  description : String
deriving DecidableEq

/-- `glue.CfnJob.JobCommandProperty`. -/
structure JobCommandProperty where
  name : String
  python_version : String
  script_location : String
deriving DecidableEq

/-- `glue.CfnJob` properties passed in this stack. -/
structure CfnJob where
  construct_id : String
  name : String
  command : JobCommandProperty
  role : String
  glue_version : String
  max_capacity : Nat
  timeout : Nat
  default_arguments : List (String × String)
deriving DecidableEq

/-- `glue.CfnTrigger.ConditionProperty`. -/
structure ConditionProperty where
  state : String
  logical_operator : String
  job_name : String
deriving DecidableEq

/-- `glue.CfnTrigger.PredicateProperty`. -/
structure PredicateProperty where
  conditions : List ConditionProperty
deriving DecidableEq

/-- `glue.CfnTrigger.ActionProperty` (only `job_name` is used here). -/
structure ActionProperty where
  job_name : String
deriving DecidableEq

/-- `glue.CfnTrigger` properties passed in this stack.  `schedule` and
`predicate` default to `none` when omitted. -/
structure CfnTrigger where
  construct_id : String
  name : String
  actions : List ActionProperty
  type_ : String
  start_on_creation : Bool
  schedule : Option String
  workflow_name : Option String
  predicate : Option PredicateProperty
deriving DecidableEq

/-- Resolved values of the deploy-time attribute references used by the
stack: the two generated bucket names and the glue role's ARN. -/
structure Env where
  data_bucket_name : String
  scripts_bucket_name : String
  glue_role_arn : String

/-- `glue_role`: Glue IAM role with the AWS managed Glue service policy. -/
def glue_role : Role :=
  { construct_id := "my_glue_role"
    assumed_by := "glue.amazonaws.com"
    managed_policies := ["service-role/AWSGlueServiceRole"] }

/-- `secrets_manager_policy`: the statement attached to `glue_role` via
`add_to_policy`, for retrieving the Ticketmaster API key. -/
def secrets_manager_policy : PolicyStatement :=
  { effect := Effect.ALLOW
    actions := ["secretsmanager:GetSecretValue"]
    resources :=
      ["arn:aws:secretsmanager:us-west-2:943686807189:secret:finalproject/daniel/ticketmaster-Gu2UO4"] }

/-- `data_bucket`: versioned, publicly readable, destroyed with the
stack, objects auto-deleted. -/
def data_bucket : Bucket :=
  { construct_id := "final_data"
    versioned := true
    public_read_access := true
    block_public_access := none
    removal_policy := RemovalPolicy.DESTROY
    auto_delete_objects := true }

/-- `scripts_bucket`: versioned, all public access blocked, destroyed
with the stack, objects auto-deleted. -/
def scripts_bucket : Bucket :=
  { construct_id := "glue_scripts"
    versioned := true
    public_read_access := false
    block_public_access := some BlockPublicAccess.BLOCK_ALL
    removal_policy := RemovalPolicy.DESTROY
    auto_delete_objects := true }

/-- `deploy_assets`: uploads `./assets/` into the scripts bucket under
the key prefix `assets/` (the source's `destination_key` prefix field). -/
def deploy_assets : BucketDeployment :=
  { construct_id := "deploy_assets"
    sources := ["./assets/"]
    destination_bucket := "glue_scripts"
    dest_key_pfx := "assets/" }

/-- `my_workflow`: the Glue workflow container. -/
def my_workflow : CfnWorkflow :=
  { construct_id := "ticketmaster_workflow"
    description := "Workflow for processing Ticketmaster data to parquet" }

/-- Job 1, `ticketmaster_download_job` (construct id and name
`download_ticketmaster_data`). -/
def ticketmaster_download_job (env : Env) : CfnJob :=
  { construct_id := "download_ticketmaster_data"
    name := "download_ticketmaster_data"
    command :=
      { name := "pythonshell"
        python_version := "3.9"
        script_location :=
          "s3://" ++ env.scripts_bucket_name ++ "/assets/ticketmaster_to_parquet.py" }
    role := env.glue_role_arn
    glue_version := "3.0"
    max_capacity := 1
    timeout := 3
    default_arguments := [("--my_bucket", env.data_bucket_name)] }

/-- Job 2, `fragments_to_parquet_job`. -/
def fragments_to_parquet_job (env : Env) : CfnJob :=
  { construct_id := "fragments_to_parquet_job"
    name := "fragments_to_parquet_job"
    command :=
      { name := "pythonshell"
        python_version := "3.9"
        script_location :=
          "s3://" ++ env.scripts_bucket_name ++ "/assets/merge_parquet_final.py" }
    role := env.glue_role_arn
    glue_version := "3.0"
    max_capacity := 1
    timeout := 3
    default_arguments := [("--my_bucket", env.data_bucket_name)] }

/-- Job 3, `parquet_analysis_job`; additionally pins third-party
libraries via `--additional-python-modules`. -/
def parquet_analysis_job (env : Env) : CfnJob :=
  { construct_id := "parquet_analysis_job"
    name := "parquet_analysis_job"
    command :=
      { name := "pythonshell"
        python_version := "3.9"
        script_location :=
          "s3://" ++ env.scripts_bucket_name ++ "/assets/V2TicketMasterAnalysis_Final.py" }
    role := env.glue_role_arn
    glue_version := "3.0"
    max_capacity := 1
    timeout := 3
    default_arguments :=
      [("--my_bucket", env.data_bucket_name),
       ("--additional-python-modules", "dython==0.7.5,matplotlib==3.8.3,folium==0.16.0")] }

/-- `job_1_trigger` (`initial_trigger`): scheduled daily cron trigger
for job 1.  The source passes `workflow_name=my_workflow.name`, and that
name property was never set, so the passed value is `None`. -/
def job_1_trigger (env : Env) : CfnTrigger :=
  { construct_id := "initial_trigger"
    name := "initial_trigger"
    actions := [{ job_name := (ticketmaster_download_job env).name }]
    type_ := "SCHEDULED"
    start_on_creation := true
    schedule := some "cron(0 11 * * ? *)"
    workflow_name := none
    predicate := none }

/-- `job_2_trigger` (`frag_trigger`): conditional trigger starting job 2
when job 1 has SUCCEEDED.  As for trigger 1, the passed
`workflow_name=my_workflow.name` value is `None`. -/
def job_2_trigger (env : Env) : CfnTrigger :=
  { construct_id := "frag_trigger"
    name := "frag_trigger"
    actions := [{ job_name := (fragments_to_parquet_job env).name }]
    type_ := "CONDITIONAL"
    start_on_creation := true
    schedule := none
    workflow_name := none
    predicate := some
      { conditions :=
          [{ state := "SUCCEEDED"
             logical_operator := "EQUALS"
             job_name := (ticketmaster_download_job env).name }] } }

/-- `job_3_trigger` (`analysis_trigger`): conditional trigger starting
job 3 when job 2 has SUCCEEDED.  As for trigger 1, the passed
`workflow_name=my_workflow.name` value is `None`. -/
def job_3_trigger (env : Env) : CfnTrigger :=
  { construct_id := "analysis_trigger"
    name := "analysis_trigger"
    actions := [{ job_name := (parquet_analysis_job env).name }]
    type_ := "CONDITIONAL"
    start_on_creation := true
    schedule := none
    workflow_name := none
    predicate := some
      { conditions :=
          [{ state := "SUCCEEDED"
             logical_operator := "EQUALS"
             job_name := (fragments_to_parquet_job env).name }] } }

/-- One declaration event of the stack constructor. -/
inductive Resource
  | role (r : Role)
  | add_to_policy (role_id : String) (s : PolicyStatement)
  | bucket (b : Bucket)
  | grant_read_write (b : Bucket) (r : Role)
  | grant_read (b : Bucket) (r : Role)
  | bucket_deployment (d : BucketDeployment)
  | workflow (w : CfnWorkflow)
  | job (j : CfnJob)
  | trigger (t : CfnTrigger)
deriving DecidableEq

/-- The body of `FinalCloudProjectV2Stack.__init__`, in source order.
The commented-out catalog/crawler block at the end of the file declares
nothing. -/
def finalCloudProjectV2Stack (env : Env) : List Resource :=
  [ Resource.role glue_role
  , Resource.add_to_policy "my_glue_role" secrets_manager_policy
  , Resource.bucket data_bucket
  , Resource.bucket scripts_bucket
  , Resource.grant_read_write data_bucket glue_role
  , Resource.grant_read scripts_bucket glue_role
  , Resource.bucket_deployment deploy_assets
  , Resource.workflow my_workflow
  , Resource.job (ticketmaster_download_job env)
  , Resource.job (fragments_to_parquet_job env)
  , Resource.job (parquet_analysis_job env)
  , Resource.trigger (job_1_trigger env)
  , Resource.trigger (job_2_trigger env)
  , Resource.trigger (job_3_trigger env)
  ]

/-- The S3 bucket resources of the stack, in declaration order. -/
def stackBuckets (env : Env) : List Bucket :=
  (finalCloudProjectV2Stack env).filterMap fun d =>
    match d with
    | Resource.bucket b => some b
    | _ => none

/-- The IAM role resources of the stack. -/
def stackRoles (env : Env) : List Role :=
  (finalCloudProjectV2Stack env).filterMap fun d =>
    match d with
    | Resource.role r => some r
    | _ => none

/-- The Glue job resources of the stack, in declaration order. -/
def stackJobs (env : Env) : List CfnJob :=
  (finalCloudProjectV2Stack env).filterMap fun d =>
    match d with
    | Resource.job j => some j
    | _ => none

/-- The Glue trigger resources of the stack, in declaration order. -/
def stackTriggers (env : Env) : List CfnTrigger :=
  (finalCloudProjectV2Stack env).filterMap fun d =>
    match d with
    | Resource.trigger t => some t
    | _ => none

/-- The Glue workflow resources of the stack. -/
def stackWorkflows (env : Env) : List CfnWorkflow :=
  (finalCloudProjectV2Stack env).filterMap fun d =>
    match d with
    | Resource.workflow w => some w
    | _ => none

/-- The policy statements attached to a role by `add_to_policy` calls. -/
def addedPolicyStatements (env : Env) (role_id : String) : List PolicyStatement :=
  (finalCloudProjectV2Stack env).filterMap fun d =>
    match d with
    | Resource.add_to_policy i s => if i = role_id then some s else none
    | _ => none

/-- The list of upstream conditions a trigger declares (empty when it
has no predicate). -/
def triggerConditions (t : CfnTrigger) : List ConditionProperty :=
  match t.predicate with
  | none => []
  | some p => p.conditions

/-- A concrete resolution of the deploy-time references, used to
instantiate the universally quantified theorems. -/
def sampleEnv : Env :=
  { data_bucket_name := "final-data-bucket"
    scripts_bucket_name := "glue-scripts-bucket"
    glue_role_arn := "arn:aws:iam::943686807189:role/my-glue-role" }

/-- The stack's trigger resources are exactly the three declared
triggers, in order. -/
theorem stackTriggers_eq (env : Env) :
    stackTriggers env = [job_1_trigger env, job_2_trigger env, job_3_trigger env] := rfl

/-- The stack's job resources are exactly the three declared jobs, in
order. -/
theorem stackJobs_eq (env : Env) :
    stackJobs env = [ticketmaster_download_job env, fragments_to_parquet_job env,
      parquet_analysis_job env] := rfl

/-- C1: the trigger chain is strictly linear and success-gated: the
trigger for job 2 has exactly one condition, an exact-equality
(`EQUALS`) match of job 1 (`download_ticketmaster_data`) against the
literal state `"SUCCEEDED"`; the trigger for job 3 has exactly one
condition, an exact-equality match of job 2 against `"SUCCEEDED"`; no
trigger of the stack declares more than one upstream condition, and
every declared condition matches `"SUCCEEDED"` (no failure-path
trigger). -/
theorem trigger_chain_strictly_linear_success_gated (env : Env) :
    triggerConditions (job_2_trigger env) =
      [{ state := "SUCCEEDED", logical_operator := "EQUALS",
         job_name := (ticketmaster_download_job env).name }] ∧
    triggerConditions (job_3_trigger env) =
      [{ state := "SUCCEEDED", logical_operator := "EQUALS",
         job_name := (fragments_to_parquet_job env).name }] ∧
    (∀ t ∈ stackTriggers env, (triggerConditions t).length ≤ 1) ∧
    (∀ t ∈ stackTriggers env, ∀ c ∈ triggerConditions t, c.state = "SUCCEEDED") := by
  refine ⟨rfl, rfl, ?_, ?_⟩
  · intro t ht
    rw [stackTriggers_eq] at ht
    simp only [List.mem_cons, List.not_mem_nil, or_false] at ht
    rcases ht with rfl | rfl | rfl <;>
      first
        | exact Nat.zero_le 1
        | exact Nat.le_refl 1
  · intro t ht c hc
    rw [stackTriggers_eq] at ht
    simp only [List.mem_cons, List.not_mem_nil, or_false] at ht
    rcases ht with rfl | rfl | rfl <;>
      simp only [triggerConditions, job_1_trigger, job_2_trigger, job_3_trigger,
        List.mem_cons, List.not_mem_nil, or_false] at hc <;>
      first
        | exact absurd hc (List.not_mem_nil c)
        | (subst hc; rfl)

/-- C1 witness: the property instantiated at a concrete resolution of
the deploy-time references. -/
theorem trigger_chain_strictly_linear_success_gated_witness :
    triggerConditions (job_2_trigger sampleEnv) =
      [{ state := "SUCCEEDED", logical_operator := "EQUALS",
         job_name := (ticketmaster_download_job sampleEnv).name }] ∧
    triggerConditions (job_3_trigger sampleEnv) =
      [{ state := "SUCCEEDED", logical_operator := "EQUALS",
         job_name := (fragments_to_parquet_job sampleEnv).name }] ∧
    (∀ t ∈ stackTriggers sampleEnv, (triggerConditions t).length ≤ 1) ∧
    (∀ t ∈ stackTriggers sampleEnv, ∀ c ∈ triggerConditions t, c.state = "SUCCEEDED") :=
  trigger_chain_strictly_linear_success_gated sampleEnv

/-- C2: beyond the attached managed policy, exactly one permission
statement is added to the glue role, and it allows exactly the action
`secretsmanager:GetSecretValue` on exactly the one hard-coded secret
ARN. -/
theorem role_added_policy_exactly_secret_read (env : Env) :
    addedPolicyStatements env glue_role.construct_id = [secrets_manager_policy] ∧
    secrets_manager_policy.effect = Effect.ALLOW ∧
    secrets_manager_policy.actions = ["secretsmanager:GetSecretValue"] ∧
    secrets_manager_policy.resources =
      ["arn:aws:secretsmanager:us-west-2:943686807189:secret:finalproject/daniel/ticketmaster-Gu2UO4"] :=
  ⟨rfl, rfl, rfl, rfl⟩

/-- C2 witness: the property instantiated at a concrete resolution. -/
theorem role_added_policy_exactly_secret_read_witness :
    addedPolicyStatements sampleEnv glue_role.construct_id = [secrets_manager_policy] ∧
    secrets_manager_policy.effect = Effect.ALLOW ∧
    secrets_manager_policy.actions = ["secretsmanager:GetSecretValue"] ∧
    secrets_manager_policy.resources =
      ["arn:aws:secretsmanager:us-west-2:943686807189:secret:finalproject/daniel/ticketmaster-Gu2UO4"] :=
  role_added_policy_exactly_secret_read sampleEnv

/-- C3: the data bucket is declared with public read access enabled
(and no public-access block), the scripts bucket blocks all public
access, and both buckets are versioned. -/
theorem bucket_public_access_config :
    data_bucket.public_read_access = true ∧
    data_bucket.block_public_access = none ∧
    scripts_bucket.public_read_access = false ∧
    scripts_bucket.block_public_access = some BlockPublicAccess.BLOCK_ALL ∧
    data_bucket.versioned = true ∧
    scripts_bucket.versioned = true :=
  ⟨rfl, rfl, rfl, rfl, rfl, rfl⟩

/-- C4: the declaration contains exactly 2 bucket resources, 1 role
resource, 3 job resources, 3 trigger resources and 1 workflow
resource. -/
theorem synthesized_resource_counts (env : Env) :
    (stackBuckets env).length = 2 ∧
    (stackRoles env).length = 1 ∧
    (stackJobs env).length = 3 ∧
    (stackTriggers env).length = 3 ∧
    (stackWorkflows env).length = 1 :=
  ⟨rfl, rfl, rfl, rfl, rfl⟩

/-- C4 witness: the counts at a concrete resolution. -/
theorem synthesized_resource_counts_witness :
    (stackBuckets sampleEnv).length = 2 ∧
    (stackRoles sampleEnv).length = 1 ∧
    (stackJobs sampleEnv).length = 3 ∧
    (stackTriggers sampleEnv).length = 3 ∧
    (stackWorkflows sampleEnv).length = 1 :=
  synthesized_resource_counts sampleEnv

/-- C5: the trigger for job 1 is `SCHEDULED` with the literal cron
expression `cron(0 11 * * ? *)`; the triggers for jobs 2 and 3 are
`CONDITIONAL` with no schedule. -/
theorem trigger_types_and_schedule (env : Env) :
    (job_1_trigger env).type_ = "SCHEDULED" ∧
    (job_1_trigger env).schedule = some "cron(0 11 * * ? *)" ∧
    (job_2_trigger env).type_ = "CONDITIONAL" ∧
    (job_2_trigger env).schedule = none ∧
    (job_3_trigger env).type_ = "CONDITIONAL" ∧
    (job_3_trigger env).schedule = none :=
  ⟨rfl, rfl, rfl, rfl, rfl, rfl⟩

/-- C5 witness: the property at a concrete resolution. -/
theorem trigger_types_and_schedule_witness :
    (job_1_trigger sampleEnv).type_ = "SCHEDULED" ∧
    (job_1_trigger sampleEnv).schedule = some "cron(0 11 * * ? *)" ∧
    (job_2_trigger sampleEnv).type_ = "CONDITIONAL" ∧
    (job_2_trigger sampleEnv).schedule = none ∧
    (job_3_trigger sampleEnv).type_ = "CONDITIONAL" ∧
    (job_3_trigger sampleEnv).schedule = none :=
  trigger_types_and_schedule sampleEnv

/-- C6: exactly three job definitions exist, each referencing a script
key of the form `s3://<scripts bucket>/assets/<script>.py` whose key
prefix is the `deploy_assets` destination key prefix `assets/`, and the
three script locations are pairwise distinct. -/
theorem jobs_reference_distinct_scripts (env : Env) :
    (stackJobs env).length = 3 ∧
    (∀ j ∈ stackJobs env, ∃ script,
      j.command.script_location =
        "s3://" ++ env.scripts_bucket_name ++
          ("/" ++ (deploy_assets.dest_key_pfx ++ (script ++ ".py")))) ∧
    (ticketmaster_download_job env).command.script_location ≠
      (fragments_to_parquet_job env).command.script_location ∧
    (ticketmaster_download_job env).command.script_location ≠
      (parquet_analysis_job env).command.script_location ∧
    (fragments_to_parquet_job env).command.script_location ≠
      (parquet_analysis_job env).command.script_location := by
  refine ⟨rfl, ?_, ?_, ?_, ?_⟩
  · intro j hj
    rw [stackJobs_eq] at hj
    simp only [List.mem_cons, List.not_mem_nil, or_false] at hj
    rcases hj with rfl | rfl | rfl
    · exact ⟨"ticketmaster_to_parquet", rfl⟩
    · exact ⟨"merge_parquet_final", rfl⟩
    · exact ⟨"V2TicketMasterAnalysis_Final", rfl⟩
  · intro h
    have h1 : ("s3://" ++ env.scripts_bucket_name ++
        "/assets/ticketmaster_to_parquet.py" : String) =
        "s3://" ++ env.scripts_bucket_name ++ "/assets/merge_parquet_final.py" := h
    have h2 := congrArg String.data h1
    simp only [String.data_append] at h2
    exact absurd (List.append_cancel_left h2) (by decide)
  · intro h
    have h1 : ("s3://" ++ env.scripts_bucket_name ++
        "/assets/ticketmaster_to_parquet.py" : String) =
        "s3://" ++ env.scripts_bucket_name ++ "/assets/V2TicketMasterAnalysis_Final.py" := h
    have h2 := congrArg String.data h1
    simp only [String.data_append] at h2
    exact absurd (List.append_cancel_left h2) (by decide)
  · intro h
    have h1 : ("s3://" ++ env.scripts_bucket_name ++
        "/assets/merge_parquet_final.py" : String) =
        "s3://" ++ env.scripts_bucket_name ++ "/assets/V2TicketMasterAnalysis_Final.py" := h
    have h2 := congrArg String.data h1
    simp only [String.data_append] at h2
    exact absurd (List.append_cancel_left h2) (by decide)

/-- C6 witness: the property at a concrete resolution. -/
theorem jobs_reference_distinct_scripts_witness :
    (stackJobs sampleEnv).length = 3 ∧
    (∀ j ∈ stackJobs sampleEnv, ∃ script,
      j.command.script_location =
        "s3://" ++ sampleEnv.scripts_bucket_name ++
          ("/" ++ (deploy_assets.dest_key_pfx ++ (script ++ ".py")))) ∧
    (ticketmaster_download_job sampleEnv).command.script_location ≠
      (fragments_to_parquet_job sampleEnv).command.script_location ∧
    (ticketmaster_download_job sampleEnv).command.script_location ≠
      (parquet_analysis_job sampleEnv).command.script_location ∧
    (fragments_to_parquet_job sampleEnv).command.script_location ≠
      (parquet_analysis_job sampleEnv).command.script_location :=
  jobs_reference_distinct_scripts sampleEnv

/-- C7: every job's default-argument map carries `--my_bucket` set to
the data bucket's name; job 3 additionally declares the pinned modules
`dython==0.7.5,matplotlib==3.8.3,folium==0.16.0` under
`--additional-python-modules`, an argument jobs 1 and 2 do not
declare. -/
theorem job_default_arguments (env : Env) :
    (∀ j ∈ stackJobs env, ("--my_bucket", env.data_bucket_name) ∈ j.default_arguments) ∧
    ("--additional-python-modules", "dython==0.7.5,matplotlib==3.8.3,folium==0.16.0") ∈
      (parquet_analysis_job env).default_arguments ∧
    (∀ p ∈ (ticketmaster_download_job env).default_arguments,
      p.1 ≠ "--additional-python-modules") ∧
    (∀ p ∈ (fragments_to_parquet_job env).default_arguments,
      p.1 ≠ "--additional-python-modules") := by
  refine ⟨?_, ?_, ?_, ?_⟩
  · intro j hj
    rw [stackJobs_eq] at hj
    simp only [List.mem_cons, List.not_mem_nil, or_false] at hj
    rcases hj with rfl | rfl | rfl <;> exact List.mem_cons_self _ _
  · exact List.mem_cons_of_mem _ (List.mem_cons_self _ _)
  · intro p hp
    simp only [ticketmaster_download_job, List.mem_cons, List.not_mem_nil, or_false] at hp
    subst hp
    exact (by decide : ("--my_bucket" : String) ≠ "--additional-python-modules")
  · intro p hp
    simp only [fragments_to_parquet_job, List.mem_cons, List.not_mem_nil, or_false] at hp
    subst hp
    exact (by decide : ("--my_bucket" : String) ≠ "--additional-python-modules")

/-- C7 witness: the property at a concrete resolution. -/
theorem job_default_arguments_witness :
    (∀ j ∈ stackJobs sampleEnv,
      ("--my_bucket", sampleEnv.data_bucket_name) ∈ j.default_arguments) ∧
    ("--additional-python-modules", "dython==0.7.5,matplotlib==3.8.3,folium==0.16.0") ∈
      (parquet_analysis_job sampleEnv).default_arguments ∧
    (∀ p ∈ (ticketmaster_download_job sampleEnv).default_arguments,
      p.1 ≠ "--additional-python-modules") ∧
    (∀ p ∈ (fragments_to_parquet_job sampleEnv).default_arguments,
      p.1 ≠ "--additional-python-modules") :=
  job_default_arguments sampleEnv

/-- Is a declaration event one of the two bucket grants? -/
def isGrant : Resource → Bool
  | Resource.grant_read_write _ _ => true
  | Resource.grant_read _ _ => true
  | _ => false

/-- Is a declaration event a job definition? -/
def isJobDecl : Resource → Bool
  | Resource.job _ => true
  | _ => false

/-- C8: the role is granted read-write on the data bucket and read-only
on the scripts bucket, and the constructor body splits into a prefix
holding both grants (and no job) followed by a suffix holding the three
job definitions (and no grant): both grants are declared before any job
referencing the role. -/
theorem grants_precede_job_definitions (env : Env) :
    ∃ pre post, finalCloudProjectV2Stack env = pre ++ post ∧
      pre.filter isGrant = [Resource.grant_read_write data_bucket glue_role,
        Resource.grant_read scripts_bucket glue_role] ∧
      pre.filter isJobDecl = [] ∧
      post.filter isGrant = [] ∧
      post.filter isJobDecl = [Resource.job (ticketmaster_download_job env),
        Resource.job (fragments_to_parquet_job env),
        Resource.job (parquet_analysis_job env)] ∧
      ∀ j ∈ stackJobs env, j.role = env.glue_role_arn := by
  refine ⟨(finalCloudProjectV2Stack env).take 8, (finalCloudProjectV2Stack env).drop 8,
    rfl, rfl, rfl, rfl, rfl, ?_⟩
  intro j hj
  rw [stackJobs_eq] at hj
  simp only [List.mem_cons, List.not_mem_nil, or_false] at hj
  rcases hj with rfl | rfl | rfl <;> rfl

/-- C8 witness: the property at a concrete resolution. -/
theorem grants_precede_job_definitions_witness :
    ∃ pre post, finalCloudProjectV2Stack sampleEnv = pre ++ post ∧
      pre.filter isGrant = [Resource.grant_read_write data_bucket glue_role,
        Resource.grant_read scripts_bucket glue_role] ∧
      pre.filter isJobDecl = [] ∧
      post.filter isGrant = [] ∧
      post.filter isJobDecl = [Resource.job (ticketmaster_download_job sampleEnv),
        Resource.job (fragments_to_parquet_job sampleEnv),
        Resource.job (parquet_analysis_job sampleEnv)] ∧
      ∀ j ∈ stackJobs sampleEnv, j.role = sampleEnv.glue_role_arn :=
  grants_precede_job_definitions sampleEnv

/-- C9: both buckets carry removal policy `DESTROY` and automatic
object deletion on stack teardown. -/
theorem buckets_destroyed_with_stack :
    data_bucket.removal_policy = RemovalPolicy.DESTROY ∧
    data_bucket.auto_delete_objects = true ∧
    scripts_bucket.removal_policy = RemovalPolicy.DESTROY ∧
    scripts_bucket.auto_delete_objects = true :=
  ⟨rfl, rfl, rfl, rfl⟩

/-- C10: the uniform-configuration part of the claim holds — the three
jobs share command `pythonshell`, python `3.9`, glue `3.0`, max capacity
1, timeout 3 and the single role's ARN, every trigger sets
`start_on_creation` and the stack declares exactly one workflow — but the
attachment part fails: each trigger's `workflow_name` is the value of
`my_workflow.name`, the never-set name property of the L1 workflow
construct, i.e. `none`, so no trigger is attached to the declared
workflow. -/
theorem jobs_uniform_triggers_not_attached (env : Env) :
    (∀ j ∈ stackJobs env,
      j.command.name = "pythonshell" ∧
      j.command.python_version = "3.9" ∧
      j.glue_version = "3.0" ∧
      j.max_capacity = 1 ∧
      j.timeout = 3 ∧
      j.role = env.glue_role_arn) ∧
    (∀ t ∈ stackTriggers env,
      t.start_on_creation = true ∧
      t.workflow_name = none) ∧
    stackWorkflows env = [my_workflow] := by
  refine ⟨?_, ?_, rfl⟩
  · intro j hj
    rw [stackJobs_eq] at hj
    simp only [List.mem_cons, List.not_mem_nil, or_false] at hj
    rcases hj with rfl | rfl | rfl <;> exact ⟨rfl, rfl, rfl, rfl, rfl, rfl⟩
  · intro t ht
    rw [stackTriggers_eq] at ht
    simp only [List.mem_cons, List.not_mem_nil, or_false] at ht
    rcases ht with rfl | rfl | rfl <;> exact ⟨rfl, rfl⟩

/-- C10 witness: the property at a concrete resolution. -/
theorem jobs_uniform_triggers_not_attached_witness :
    (∀ j ∈ stackJobs sampleEnv,
      j.command.name = "pythonshell" ∧
      j.command.python_version = "3.9" ∧
      j.glue_version = "3.0" ∧
      j.max_capacity = 1 ∧
      j.timeout = 3 ∧
      j.role = sampleEnv.glue_role_arn) ∧
    (∀ t ∈ stackTriggers sampleEnv,
      t.start_on_creation = true ∧
      t.workflow_name = none) ∧
    stackWorkflows sampleEnv = [my_workflow] :=
  jobs_uniform_triggers_not_attached sampleEnv
